import Mathlib

/-!
Shallow embedding of the execution + validation engine of the WAF test
runner (Go sources: `pkg/validator/response.go`, `pkg/client/client.go`,
`internal/reporter/results.go`, and the CLI suite runner), together with
theorems checking the natural-language specification against it.

Conventions of the embedding:
* Go slices and maps become Lean lists (maps become association lists with
  unique keys; Go map iteration order is abstracted as the list order).
* Go `string` becomes Lean `String`; `strings.Contains` becomes
  `strContains` below, a contiguous-subsequence check on the character
  sequence.
* Go `int` becomes `Int`.
* The Go standard library regex engine (`regexp.MatchString`) is external
  to the repository; it is abstracted as a parameter
  `matchString : String → String → Except String Bool` (pattern, then
  subject; `.error e` models a compile failure, `.ok b` a successful
  compile with match result `b`), exactly the shape of the Go call site.
* Functions that mutate a `*ValidationResult` in place become functions
  from the result to the updated result.
* `panic` (in `ValidateMultiple`) becomes an `Option` result, `none`
  standing for the fault/abort.
* Wall-clock durations and timestamps are dropped: no claim treated here
  depends on them.
-/

/-- Go `strings.Contains(s, sub)`: `sub` occurs contiguously in `s`.
`charsPrefix needle hay` is `strings.HasPrefix` on character lists. -/
def charsPrefix : List Char → List Char → Bool
  | [], _ => true
  | _ :: _, [] => false
  | a :: as, b :: bs => a == b && charsPrefix as bs

/-- Helper for `strContains`: does `needle` occur contiguously in the list? -/
def charsInfix (needle : List Char) : List Char → Bool
  | [] => needle.isEmpty
  | c :: cs => charsPrefix needle (c :: cs) || charsInfix needle cs

/-- Go `strings.Contains(s, sub)`. -/
def strContains (s sub : String) : Bool := charsInfix sub.data s.data

/-- Go `fmt.Sprintf("%v", xs)` for an `[]int`: `[200 201]`. -/
def goFmtIntList (xs : List Int) : String :=
  "[" ++ String.intercalate " " (xs.map toString) ++ "]"

/-- Error text of pkg/validator/response.go lines 72-76. -/
def statusMismatchMsg (expectedSet : List Int) (actual : Int) : String :=
  "Status code mismatch: expected one of " ++ goFmtIntList expectedSet ++
    ", got " ++ toString actual

/-- Error text of pkg/validator/response.go lines 87-90. -/
def missingHeaderMsg (key : String) : String :=
  "Missing expected header: " ++ key

/-- Error text of pkg/validator/response.go lines 95-100. -/
def headerMismatchMsg (key expectedValue actualValue : String) : String :=
  "Header value mismatch for " ++ key ++ ": expected to contain '" ++
    expectedValue ++ "', got '" ++ actualValue ++ "'"

/-- Error text of pkg/validator/response.go lines 114-118. -/
def exactMismatchMsg (expectedBody actualBody : String) : String :=
  "Body exact match failed: expected '" ++ expectedBody ++ "', got '" ++ actualBody ++ "'"

/-- Error text of pkg/validator/response.go lines 126-130; `e` renders the
Go error value of a failed regex compile. -/
def invalidRegexMsg (pattern e : String) : String :=
  "Invalid regex pattern '" ++ pattern ++ "': " ++ e

/-- Error text of pkg/validator/response.go lines 134-137. -/
def regexNoMatchMsg (pattern : String) : String :=
  "Body regex match failed: pattern '" ++ pattern ++ "' did not match response body"

/-- Error text of pkg/validator/response.go lines 144-147. -/
def containsMsg (sub : String) : String :=
  "Body should contain '" ++ sub ++ "' but it was not found"

/-- Error text of pkg/validator/response.go lines 153-156. -/
def notContainsMsg (sub : String) : String :=
  "Body should not contain '" ++ sub ++ "' but it was found"

/-- `executor.Response` (pkg/executor/http.go): normalized response
snapshot. The `Duration` field is dropped (timing is not modelled). -/
structure Response where
  statusCode : Int
  headers : List (String × String)
  body : String
deriving Repr, DecidableEq

/-- `config.BodyExpected` (internal/core/config/types.go lines 48-53). -/
structure BodyExpected where
  contains : List String
  notContains : List String
  exact : String
  regex : String
deriving Repr, DecidableEq

/-- `config.Expected` (internal/core/config/types.go lines 42-46). -/
structure Expected where
  status : List Int
  headers : List (String × String)
  body : Option BodyExpected
deriving Repr, DecidableEq

/-- `validator.ValidationResult` (pkg/validator/response.go lines 14-18). -/
structure ValidationResult where
  passed : Bool
  errors : List String
  warnings : List String
deriving Repr, DecidableEq

/-- `validateStatusCode` (pkg/validator/response.go lines 56-77). -/
def validateStatusCode (response : Response) (expected : Expected)
    (result : ValidationResult) : ValidationResult :=
  if expected.status.length = 0 then
    { result with warnings := result.warnings ++ ["No expected status codes defined"] }
  else if expected.status.any (fun expectedStatus => response.statusCode == expectedStatus) then
    result
  else
    { result with errors := result.errors ++
        [statusMismatchMsg expected.status response.statusCode] }

/-- Error text produced for one expected-header entry, `none` when the
entry is satisfied (the body of the loop in `validateHeaders`,
pkg/validator/response.go lines 84-102). -/
def headerEntryError (response : Response) (entry : String × String) : Option String :=
  match response.headers.lookup entry.1 with
  | none => some (missingHeaderMsg entry.1)
  | some actualValue =>
    if strContains actualValue entry.2 then none
    else some (headerMismatchMsg entry.1 entry.2 actualValue)

/-- `validateHeaders` (pkg/validator/response.go lines 79-103). -/
def validateHeaders (response : Response) (expected : Expected)
    (result : ValidationResult) : ValidationResult :=
  if expected.headers.length = 0 then result
  else expected.headers.foldl (fun acc entry =>
    match headerEntryError response entry with
    | some e => { acc with errors := acc.errors ++ [e] }
    | none => acc) result

/-- `validateBody` (pkg/validator/response.go lines 105-159).
`matchString` abstracts Go `regexp.MatchString`. -/
def validateBody (matchString : String → String → Except String Bool)
    (response : Response) (expected : Expected)
    (result : ValidationResult) : ValidationResult :=
  match expected.body with
  | none => result
  | some bodyExpected =>
    if bodyExpected.exact ≠ "" then
      if response.body ≠ bodyExpected.exact then
        { result with errors := result.errors ++
            [exactMismatchMsg bodyExpected.exact response.body] }
      else result
    else if bodyExpected.regex ≠ "" then
      match matchString bodyExpected.regex response.body with
      | .error e =>
        { result with errors := result.errors ++ [invalidRegexMsg bodyExpected.regex e] }
      | .ok matched =>
        if !matched then
          { result with errors := result.errors ++ [regexNoMatchMsg bodyExpected.regex] }
        else result
    else
      let afterContains := bodyExpected.contains.foldl (fun acc expectedContains =>
        if !strContains response.body expectedContains then
          { acc with errors := acc.errors ++ [containsMsg expectedContains] }
        else acc) result
      bodyExpected.notContains.foldl (fun acc expectedNotContains =>
        if strContains response.body expectedNotContains then
          { acc with errors := acc.errors ++ [notContainsMsg expectedNotContains] }
        else acc) afterContains

/-- `Validate` (pkg/validator/response.go lines 26-54). The `testName`
argument only feeds the log hook in the source; it is kept for fidelity. -/
def Validate (matchString : String → String → Except String Bool)
    (response : Response) (expected : Expected) (_testName : String) : ValidationResult :=
  let result : ValidationResult := { passed := true, errors := [], warnings := [] }
  let result := validateStatusCode response expected result
  let result := validateHeaders response expected result
  let result := validateBody matchString response expected result
  if result.errors.length > 0 then { result with passed := false } else result

/-- Pointwise ternary zip, the shape of the index loop in
`ValidateMultiple` once the three lengths agree. -/
def zipWith3 (f : α → β → γ → δ) : List α → List β → List γ → List δ
  | a :: as, b :: bs, c :: cs => f a b c :: zipWith3 f as bs cs
  | _, _, _ => []

/-- `ValidateMultiple` (pkg/validator/response.go lines 161-172); the Go
`panic("mismatched lengths in ValidateMultiple")` becomes `none`. -/
def ValidateMultiple (matchString : String → String → Except String Bool)
    (responses : List Response) (expected : List Expected)
    (testNames : List String) : Option (List ValidationResult) :=
  if responses.length ≠ expected.length ∨ responses.length ≠ testNames.length then
    none
  else
    some (zipWith3 (Validate matchString) responses expected testNames)

/-- `config.Request` (internal/core/config/types.go lines 35-40). -/
structure Request where
  method : String
  path : String
  headers : List (String × String)
  body : String
deriving Repr, DecidableEq

/-- `config.Test` (internal/core/config/types.go lines 29-33). -/
structure TestCase where
  name : String
  request : Request
  expected : Expected
deriving Repr, DecidableEq

/-- `reporter.TestReport` (internal/reporter/results.go lines 16-24);
`Duration` and `Timestamp` dropped. `Response`/`ValidationResult` are
optional because a Go nil pointer is `none`. -/
structure TestReport where
  testName : String
  status : String
  request : Request
  response : Option Response
  validationResult : Option ValidationResult
deriving Repr, DecidableEq

/-- `reporter.SuiteReport` (internal/reporter/results.go lines 26-34);
`Duration` and `Timestamp` dropped. -/
structure SuiteReport where
  suiteName : String
  totalTests : Nat
  passedTests : Nat
  failedTests : Nat
  tests : List TestReport
deriving Repr, DecidableEq

/-- `Reporter.GenerateTestReport` (internal/reporter/results.go lines
48-63): status is PASS iff the validation passed; at this call site
response and validation are always present. -/
def GenerateTestReport (testName : String) (request : Request)
    (response : Response) (validation : ValidationResult) : TestReport :=
  { testName := testName
    status := if !validation.passed then "FAIL" else "PASS"
    request := request
    response := some response
    validationResult := some validation }

/-- `Reporter.GenerateSuiteReport` (internal/reporter/results.go lines
65-86): counts PASS reports, everything else counts as failed. -/
def GenerateSuiteReport (suiteName : String) (testReports : List TestReport) : SuiteReport :=
  { suiteName := suiteName
    totalTests := testReports.length
    passedTests := (testReports.filter (fun r => r.status == "PASS")).length
    failedTests := (testReports.filter (fun r => !(r.status == "PASS"))).length
    tests := testReports }

/-- The CLI's `executeTestsSequentially` (cmd main, lines 183-208).
`exec` abstracts `httpExecutor.ExecuteTest(&test, baseURL)`: `.error e`
is a transport-level failure with message `e`. On failure the source
logs and `continue`s WITHOUT appending any report. -/
def executeTestsSequentially (matchString : String → String → Except String Bool)
    (exec : TestCase → Except String Response)
    (tests : List TestCase) : List TestReport :=
  tests.foldl (fun reports test =>
    match exec test with
    | .error _ => reports
    | .ok response =>
      let validation := Validate matchString response test.expected test.name
      reports ++ [GenerateTestReport test.name test.request response validation]) []

/-- `client.TestResult` (pkg/client/client.go lines 31-37); `Duration`
dropped. -/
structure TestResult where
  testName : String
  passed : Bool
  errors : List String
  warnings : List String
deriving Repr, DecidableEq

/-- `client.SuiteResult` (pkg/client/client.go lines 40-47); `Duration`
dropped. -/
structure SuiteResult where
  suiteName : String
  totalTests : Nat
  passedTests : Nat
  failedTests : Nat
  testResults : List TestResult
deriving Repr, DecidableEq

/-- Per-test step of `Client.runTests` (pkg/client/client.go lines
140-163): a transport failure appends a failed TestResult whose sole
error is the transport error message (no warnings), then execution
continues; a response is validated and recorded either way. -/
def runTestsStep (matchString : String → String → Except String Bool)
    (exec : TestCase → Except String Response) (test : TestCase) : TestResult :=
  match exec test with
  | .error e =>
    { testName := test.name, passed := false, errors := [e], warnings := [] }
  | .ok response =>
    let validation := Validate matchString response test.expected test.name
    { testName := test.name
      passed := validation.passed
      errors := validation.errors
      warnings := validation.warnings }

/-- `Client.runTests` (pkg/client/client.go lines 136-181). -/
def runTests (matchString : String → String → Except String Bool)
    (exec : TestCase → Except String Response)
    (suiteName : String) (tests : List TestCase) : SuiteResult :=
  let testResults := tests.map (runTestsStep matchString exec)
  let passed := (testResults.filter (fun r => r.passed)).length
  { suiteName := suiteName
    totalTests := testResults.length
    passedTests := passed
    failedTests := testResults.length - passed
    testResults := testResults }

/-!
Small-step model of `executeTestsConcurrently` (cmd main, lines 210-252).
Each of the `n` scheduled tests runs the goroutine body

    semaphore <- struct{}{}              -- admission gate, capacity `limit`
    response, err := ExecuteTestWithContext(...)
    if err != nil { log; return }        -- deferred: <-semaphore; wg.Done()
    report := GenerateTestReport(...)
    mu.Lock(); reports = append(reports, *report); mu.Unlock()
    PrintTestReport(report)              -- then deferred: <-semaphore; wg.Done()

`outcome i = some r` abstracts a test whose request succeeds and whose
validation/report pipeline builds report `r`; `outcome i = none` is a
transport failure (the goroutine returns without appending anything).
The phases track the program counter of one goroutine; the semaphore slot
is held from the channel send until the deferred receive at return.
-/

/-- Program counter of one test goroutine in `executeTestsConcurrently`. -/
inductive GoPhase
  | idle       -- goroutine spawned, before `semaphore <- struct{}{}`
  | running    -- slot held, executing the HTTP request
  | exiting    -- request failed; about to return (still holds the slot)
  | wantLock   -- request ok, report built, before `mu.Lock()`
  | critical   -- holds `mu`, about to append
  | appended   -- appended, still holds `mu`, before `mu.Unlock()`
  | printing   -- after `mu.Unlock()`, printing the per-test report
  | done       -- returned: slot released, `wg.Done()` executed
deriving Repr, DecidableEq

/-- Does this phase hold a semaphore slot (between the channel send and
the deferred receive)? -/
def holdsSlot : GoPhase → Bool
  | .idle => false
  | .done => false
  | _ => true

/-- Is this phase inside the `mu.Lock()` ... `mu.Unlock()` region? -/
def inCS : GoPhase → Bool
  | .critical => true
  | .appended => true
  | _ => false

/-- Has this goroutine already merged its report into `reports`? -/
def mergedPhase : GoPhase → Bool
  | .appended => true
  | .printing => true
  | .done => true
  | _ => false

/-- Shared state of `executeTestsConcurrently`: per-goroutine program
counters, number of occupied semaphore slots, current mutex holder, and
the shared `reports` slice. -/
structure RunnerState (n : Nat) where
  phase : Fin n → GoPhase
  semCount : Nat
  lockHolder : Option (Fin n)
  reports : List TestReport

/-- Initial state: all goroutines spawned (the loop does `wg.Add(1)` and
`go func` for every test with no further queuing policy), nothing held,
empty `reports`. -/
def initState (n : Nat) : RunnerState n :=
  { phase := fun _ => .idle, semCount := 0, lockHolder := none, reports := [] }

/-- One atomic step of the concurrent runner, for semaphore capacity
`limit` and per-test outcomes `outcome`. -/
inductive Step (limit : Nat) (outcome : Fin n → Option TestReport) :
    RunnerState n → RunnerState n → Prop
  | acquire (i : Fin n) (s : RunnerState n) :
      s.phase i = .idle → s.semCount < limit →
      Step limit outcome s
        { s with phase := Function.update s.phase i .running,
                 semCount := s.semCount + 1 }
  | execFail (i : Fin n) (s : RunnerState n) :
      s.phase i = .running → outcome i = none →
      Step limit outcome s
        { s with phase := Function.update s.phase i .exiting }
  | execOk (i : Fin n) (s : RunnerState n) (r : TestReport) :
      s.phase i = .running → outcome i = some r →
      Step limit outcome s
        { s with phase := Function.update s.phase i .wantLock }
  | lock (i : Fin n) (s : RunnerState n) :
      s.phase i = .wantLock → s.lockHolder = none →
      Step limit outcome s
        { s with phase := Function.update s.phase i .critical,
                 lockHolder := some i }
  | append (i : Fin n) (s : RunnerState n) (r : TestReport) :
      s.phase i = .critical → outcome i = some r →
      Step limit outcome s
        { s with phase := Function.update s.phase i .appended,
                 reports := s.reports ++ [r] }
  | unlock (i : Fin n) (s : RunnerState n) :
      s.phase i = .appended →
      Step limit outcome s
        { s with phase := Function.update s.phase i .printing,
                 lockHolder := none }
  | finish (i : Fin n) (s : RunnerState n) :
      (s.phase i = .exiting ∨ s.phase i = .printing) →
      Step limit outcome s
        { s with phase := Function.update s.phase i .done,
                 semCount := s.semCount - 1 }

/-- States reachable from the initial state by interleaved goroutine
steps. -/
def Reachable (limit : Nat) (outcome : Fin n → Option TestReport)
    (s : RunnerState n) : Prop :=
  Relation.ReflTransGen (Step limit outcome) (initState n) s

/-- Number of goroutines currently holding a semaphore slot (an upper
bound on requests in flight). -/
def inFlight (s : RunnerState n) : Nat :=
  (Finset.univ.filter (fun i => holdsSlot (s.phase i) = true)).card

/-- All goroutines have returned: this is exactly when `wg.Wait()` in the
source unblocks and the suite summary is computed from `reports`. -/
def AllDone (s : RunnerState n) : Prop := ∀ i, s.phase i = .done

/-- The reports of the tests whose request succeeded, in input order:
what a lost-update-free run must deliver (up to completion order). -/
def successReports (outcome : Fin n → Option TestReport) : List TestReport :=
  (List.finRange n).filterMap outcome

/-!
Characterization functions used on the right-hand side of theorems (they
state what a check contributes, to be proved equal to the foldl-shaped
source translation above), and concrete fixtures used by witnesses and
counterexamples.
-/

/-- Errors contributed by the contains list: one per listed substring
missing from the body. -/
def bodyContainsErrors (body : String) (cs : List String) : List String :=
  cs.filterMap (fun sub => if strContains body sub then none else some (containsMsg sub))

/-- Errors contributed by the not-contains list: one per listed substring
present in the body. -/
def bodyNotContainsErrors (body : String) (ns : List String) : List String :=
  ns.filterMap (fun sub => if strContains body sub then some (notContainsMsg sub) else none)

/-- Result of evaluating only the regex rule (pkg/validator/response.go
lines 123-140) on `res`. -/
def regexEval (matchString : String → String → Except String Bool)
    (pattern subject : String) (res : ValidationResult) : ValidationResult :=
  match matchString pattern subject with
  | .error e => { res with errors := res.errors ++ [invalidRegexMsg pattern e] }
  | .ok matched =>
    if !matched then { res with errors := res.errors ++ [regexNoMatchMsg pattern] }
    else res

/-- Fresh result at the top of `Validate` (pkg/validator/response.go
lines 27-31). -/
def initResult : ValidationResult := { passed := true, errors := [], warnings := [] }

/-- Concrete stand-in for the Go regex engine, used only to instantiate
witnesses: the single pattern `[invalid` fails to compile (as in Go),
every other pattern matches iff it occurs literally in the subject. -/
def demoMatcher : String → String → Except String Bool :=
  fun pattern subject =>
    if pattern = "[invalid" then
      Except.error "error parsing regexp: missing closing ]: `[invalid`"
    else Except.ok (strContains subject pattern)

/-- Fixture: a GET request at a path. -/
def reqGet (p : String) : Request := { method := "GET", path := p, headers := [], body := "" }

/-- Fixture: expect status 200, nothing else. -/
def expect200 : Expected := { status := [200], headers := [], body := none }

/-- Fixture: first test of the 2-test suite of Scenario F. -/
def tcase1 : TestCase := { name := "test1", request := reqGet "/a", expected := expect200 }

/-- Fixture: second test of the 2-test suite of Scenario F. -/
def tcase2 : TestCase := { name := "test2", request := reqGet "/b", expected := expect200 }

/-- Fixture: a plain 200 response. -/
def okResponse : Response := { statusCode := 200, headers := [], body := "ok" }

/-- Fixture executor for Scenario F: test1's target is unreachable
(transport error), every other test gets `okResponse`. -/
def scenarioExec : TestCase → Except String Response :=
  fun t => if t.name = "test1" then Except.error "connection refused" else Except.ok okResponse

/-- Errors the status check contributes (characterization of
`validateStatusCode`, to be proved in `validateStatusCode_spec`). -/
def statusCheckErrors (response : Response) (expected : Expected) : List String :=
  if expected.status.length = 0 then []
  else if expected.status.any (fun expectedStatus => response.statusCode == expectedStatus) then []
  else [statusMismatchMsg expected.status response.statusCode]

/-- Warnings the status check contributes. -/
def statusCheckWarnings (expected : Expected) : List String :=
  if expected.status.length = 0 then ["No expected status codes defined"] else []

/-- Errors the header check contributes: at most one per expected entry,
in expectation order; entries absent from the expectation contribute
nothing. -/
def headerCheckErrors (response : Response) (expected : Expected) : List String :=
  expected.headers.filterMap (headerEntryError response)

/-- Errors the body check contributes (characterization of
`validateBody`, to be proved in `validateBody_spec`). -/
def bodyCheckErrors (matchString : String → String → Except String Bool)
    (response : Response) (expected : Expected) : List String :=
  match expected.body with
  | none => []
  | some bodyExpected =>
    if bodyExpected.exact ≠ "" then
      if response.body ≠ bodyExpected.exact then
        [exactMismatchMsg bodyExpected.exact response.body]
      else []
    else if bodyExpected.regex ≠ "" then
      match matchString bodyExpected.regex response.body with
      | .error e => [invalidRegexMsg bodyExpected.regex e]
      | .ok matched => if !matched then [regexNoMatchMsg bodyExpected.regex] else []
    else
      bodyContainsErrors response.body bodyExpected.contains ++
        bodyNotContainsErrors response.body bodyExpected.notContains

/-- All errors one `Validate` call accumulates, in check order. -/
def validateErrors (matchString : String → String → Except String Bool)
    (response : Response) (expected : Expected) : List String :=
  statusCheckErrors response expected ++ headerCheckErrors response expected ++
    bodyCheckErrors matchString response expected

/-- Fixture: a 404 response (Scenario B). -/
def notFoundResponse : Response := { statusCode := 404, headers := [], body := "" }

/-- Fixture: expect status 200 or 201. -/
def expect200201 : Expected := { status := [200, 201], headers := [], body := none }

/-- Fixture: an expectation with an empty status set. -/
def emptyStatusExpected : Expected := { status := [], headers := [], body := none }

/-- Fixture: a response carrying one header. -/
def hdrResponse : Response :=
  { statusCode := 200, headers := [("Content-Type", "application/json")], body := "ok" }

/-- Fixture: expects one header whose value will not match as a substring
and one header that is absent from `hdrResponse`. -/
def hdrExpected : Expected :=
  { status := [200],
    headers := [("Content-Type", "text/html"), ("X-Request-Id", "abc")], body := none }

/-- Fixture: a response body for the body-rule witnesses. -/
def bodyResponse : Response := { statusCode := 200, headers := [], body := "message success data test" }

/-- Fixture: exact rule set (dominant) together with ignored lower-precedence rules. -/
def beExact : BodyExpected :=
  { contains := ["success"], notContains := ["zzz"], exact := "hello", regex := "boom" }

/-- Fixture: expectation around `beExact`. -/
def exactExpected : Expected := { status := [200], headers := [], body := some beExact }

/-- Fixture: contains/not-contains lists only. -/
def beListsOnly : BodyExpected :=
  { contains := ["success", "data"], notContains := ["error"], exact := "", regex := "" }

/-- Fixture: expectation around `beListsOnly`. -/
def listsExpected : Expected := { status := [200], headers := [], body := some beListsOnly }

/-- Fixture: regex rule that matches `bodyResponse` under `demoMatcher`. -/
def beRegexOnly : BodyExpected :=
  { contains := [], notContains := [], exact := "", regex := "success" }

/-- Fixture: expectation around `beRegexOnly`. -/
def regexExpected : Expected := { status := [200], headers := [], body := some beRegexOnly }

/-- Fixture: regex rule that compiles but does not match `bodyResponse`. -/
def beRegexMiss : BodyExpected :=
  { contains := [], notContains := [], exact := "", regex := "zzz" }

/-- Fixture: expectation around `beRegexMiss`. -/
def regexMissExpected : Expected := { status := [200], headers := [], body := some beRegexMiss }

/-- Fixture: malformed regex pattern (Scenario E). -/
def beInvalidRegex : BodyExpected :=
  { contains := [], notContains := [], exact := "", regex := "[invalid" }

/-- Fixture: expectation around `beInvalidRegex`. -/
def invalidRegexExpected : Expected :=
  { status := [200], headers := [], body := some beInvalidRegex }

/-- Fixture: a body rule with every field at its zero value. -/
def beEmptyRules : BodyExpected :=
  { contains := [], notContains := [], exact := "", regex := "" }

/-- Fixture: expectation around `beEmptyRules`. -/
def emptyRulesExpected : Expected := { status := [200], headers := [], body := some beEmptyRules }

/-- Invariant of the concurrent runner, preserved by every `Step`:
the semaphore counter equals the number of slot holders and respects the
bound; the mutex holder is exactly the goroutine inside the critical
section; the shared `reports` slice holds exactly the outcomes of the
goroutines that have passed their append, up to order; and a goroutine in
the error-exit phase has no outcome to merge. -/
def RunnerInv (limit : Nat) (outcome : Fin n → Option TestReport) (s : RunnerState n) : Prop :=
  s.semCount = inFlight s ∧
  s.semCount ≤ limit ∧
  (∀ i, inCS (s.phase i) = true ↔ s.lockHolder = some i) ∧
  s.reports.Perm ((List.finRange n).filterMap
    (fun i => if mergedPhase (s.phase i) then outcome i else none)) ∧
  (∀ i, s.phase i = .exiting → outcome i = none)

/-- Fixture: the report merged in the concurrency witness run. -/
def demoReport : TestReport :=
  { testName := "t1", status := "PASS", request := reqGet "/",
    response := some okResponse, validationResult := some initResult }

/-- Fixture: outcomes of a 1-test suite whose single test succeeds. -/
def wOutcome : Fin 1 → Option TestReport := fun _ => some demoReport

/-- Fixture: the state after the witness run completes. -/
def wFinal : RunnerState 1 :=
  { phase := fun _ => GoPhase.done, semCount := 0, lockHolder := none,
    reports := [demoReport] }

/-- Fixture: a 1-goroutine runner state with uniform phase, used to spell
out the states of the witness run. -/
def wState (p : GoPhase) (sem : Nat) (lk : Option (Fin 1))
    (rep : List TestReport) : RunnerState 1 :=
  { phase := fun _ => p, semCount := sem, lockHolder := lk, reports := rep }

/-!
Theorems. First the characterization lemmas relating each source-shaped
check to its contributed error/warning lists, then one theorem per claim.
-/

theorem validateStatusCode_spec (R : Response) (E : Expected) (res : ValidationResult) :
    validateStatusCode R E res =
      { res with errors := res.errors ++ statusCheckErrors R E,
                 warnings := res.warnings ++ statusCheckWarnings E } := by
  unfold validateStatusCode statusCheckErrors statusCheckWarnings
  split_ifs <;> simp

theorem validateHeaders_foldl (R : Response) (l : List (String × String)) :
    ∀ res : ValidationResult,
      l.foldl (fun acc entry =>
        match headerEntryError R entry with
        | some e => { acc with errors := acc.errors ++ [e] }
        | none => acc) res
      = { res with errors := res.errors ++ l.filterMap (headerEntryError R) } := by
  induction l with
  | nil => intro res; simp
  | cons x xs ih =>
    intro res
    rw [List.foldl_cons, List.filterMap_cons]
    cases h : headerEntryError R x with
    | none => simp only [h]; rw [ih]
    | some e => simp only [h]; rw [ih]; simp [List.append_assoc]

theorem validateHeaders_spec (R : Response) (E : Expected) (res : ValidationResult) :
    validateHeaders R E res = { res with errors := res.errors ++ headerCheckErrors R E } := by
  unfold validateHeaders headerCheckErrors
  split_ifs with h
  · rw [List.length_eq_zero.mp h]; simp
  · exact validateHeaders_foldl R E.headers res

theorem contains_foldl (b : String) (cs : List String) :
    ∀ res : ValidationResult,
      cs.foldl (fun acc sub =>
        if !strContains b sub then { acc with errors := acc.errors ++ [containsMsg sub] }
        else acc) res
      = { res with errors := res.errors ++ bodyContainsErrors b cs } := by
  induction cs with
  | nil => intro res; simp [bodyContainsErrors]
  | cons x xs ih =>
    intro res
    simp only [List.foldl_cons]
    rw [ih]
    cases h : strContains b x <;>
      simp [h, bodyContainsErrors, List.filterMap_cons, List.append_assoc]

theorem notContains_foldl (b : String) (ns : List String) :
    ∀ res : ValidationResult,
      ns.foldl (fun acc sub =>
        if strContains b sub then { acc with errors := acc.errors ++ [notContainsMsg sub] }
        else acc) res
      = { res with errors := res.errors ++ bodyNotContainsErrors b ns } := by
  induction ns with
  | nil => intro res; simp [bodyNotContainsErrors]
  | cons x xs ih =>
    intro res
    simp only [List.foldl_cons]
    rw [ih]
    cases h : strContains b x <;>
      simp [h, bodyNotContainsErrors, List.filterMap_cons, List.append_assoc]

theorem validateBody_spec (m : String → String → Except String Bool)
    (R : Response) (E : Expected) (res : ValidationResult) :
    validateBody m R E res = { res with errors := res.errors ++ bodyCheckErrors m R E } := by
  unfold validateBody bodyCheckErrors
  cases hb : E.body with
  | none => simp
  | some be =>
    dsimp only
    by_cases h1 : be.exact ≠ ""
    · rw [if_pos h1, if_pos h1]
      split_ifs <;> simp
    · rw [if_neg h1, if_neg h1]
      by_cases h2 : be.regex ≠ ""
      · rw [if_pos h2, if_pos h2]
        cases hm : m be.regex R.body with
        | error e => simp
        | ok matched => cases matched <;> simp
      · rw [if_neg h2, if_neg h2]
        rw [contains_foldl, notContains_foldl]
        simp [List.append_assoc]

theorem Validate_spec (m : String → String → Except String Bool)
    (R : Response) (E : Expected) (name : String) :
    Validate m R E name =
      { passed := (validateErrors m R E).isEmpty,
        errors := validateErrors m R E,
        warnings := statusCheckWarnings E } := by
  unfold Validate validateErrors
  dsimp only
  rw [validateStatusCode_spec, validateHeaders_spec, validateBody_spec]
  simp only [List.nil_append, List.append_assoc]
  cases h : statusCheckErrors R E ++ (headerCheckErrors R E ++ bodyCheckErrors m R E) <;>
    simp [h]

/-- C1: for every response R, expectation set E and test label, the
ValidationResult returned by `Validate` has `passed = true` exactly when
its error list is empty; the warnings list plays no part in `passed`. -/
theorem validate_passed_iff_no_errors (m : String → String → Except String Bool)
    (R : Response) (E : Expected) (name : String) :
    (Validate m R E name).passed = true ↔ (Validate m R E name).errors = [] := by
  rw [Validate_spec]
  cases h : validateErrors m R E <;> simp [h]

/-- C4: if the expected status set is empty the status check appends
exactly one warning and no error, whatever the actual code; if it is
non-empty it appends nothing exactly when the actual code is a member,
and otherwise appends exactly one error naming the full expected set and
the actual code. -/
theorem status_check_contract (R : Response) (E : Expected) (res : ValidationResult) :
    (E.status = [] →
      validateStatusCode R E res =
        { res with warnings := res.warnings ++ ["No expected status codes defined"] }) ∧
    (E.status ≠ [] →
      (R.statusCode ∈ E.status → validateStatusCode R E res = res) ∧
      (R.statusCode ∉ E.status →
        validateStatusCode R E res =
          { res with errors := res.errors ++ [statusMismatchMsg E.status R.statusCode] })) := by
  refine ⟨fun h => ?_, fun h => ⟨fun hmem => ?_, fun hnm => ?_⟩⟩
  · rw [validateStatusCode_spec]
    simp [statusCheckErrors, statusCheckWarnings, h]
  · rw [validateStatusCode_spec]
    have hlen : ¬ E.status.length = 0 := fun hh => h (List.length_eq_zero.mp hh)
    have hany : E.status.any (fun s => R.statusCode == s) = true := by
      simp only [List.any_eq_true, beq_iff_eq]
      exact ⟨R.statusCode, hmem, rfl⟩
    simp [statusCheckErrors, statusCheckWarnings, hlen, hany]
  · rw [validateStatusCode_spec]
    have hlen : ¬ E.status.length = 0 := fun hh => h (List.length_eq_zero.mp hh)
    have hany : E.status.any (fun s => R.statusCode == s) = false := by
      simp only [List.any_eq_false, beq_iff_eq]
      exact fun x hx heq => hnm (heq ▸ hx)
    simp [statusCheckErrors, statusCheckWarnings, hlen, hany]

/-- Witness for C4: an empty status set yields one warning and no error
even on a 404; `[200]` accepts 200 silently; `[200, 201]` rejects 404
with one error naming the set and the code. -/
theorem status_check_contract_witness :
    validateStatusCode notFoundResponse emptyStatusExpected initResult =
      { initResult with warnings := ["No expected status codes defined"] } ∧
    validateStatusCode okResponse expect200 initResult = initResult ∧
    validateStatusCode notFoundResponse expect200201 initResult =
      { initResult with errors := [statusMismatchMsg [200, 201] 404] } := by
  refine ⟨?_, ?_, ?_⟩
  · exact (status_check_contract notFoundResponse emptyStatusExpected initResult).1 rfl
  · exact ((status_check_contract okResponse expect200 initResult).2 (by decide)).1 (by decide)
  · exact ((status_check_contract notFoundResponse expect200201 initResult).2
      (by decide)).2 (by decide)

/-- C5: the header check is skipped entirely when the expected header map
is empty; otherwise it appends, per expected entry in order, exactly the
error `headerEntryError` prescribes (a missing-header error when the
response lacks the key, a mismatch error naming key, expected and actual
when the actual value does not contain the expected one as a
case-sensitive substring, nothing otherwise); response headers not named
in the expectation contribute nothing, as the appended list is built from
the expectation's entries alone. -/
theorem header_check_contract (R : Response) (E : Expected) (res : ValidationResult) :
    (E.headers = [] → validateHeaders R E res = res) ∧
    validateHeaders R E res = { res with errors := res.errors ++ headerCheckErrors R E } := by
  constructor
  · intro h
    unfold validateHeaders
    simp [h]
  · exact validateHeaders_spec R E res

/-- Witness for C5: no expected headers means no change; one mismatching
and one missing expected header produce exactly their two errors in
expectation order. -/
theorem header_check_contract_witness :
    validateHeaders okResponse expect200 initResult = initResult ∧
    validateHeaders hdrResponse hdrExpected initResult =
      { initResult with errors :=
          [headerMismatchMsg "Content-Type" "text/html" "application/json",
           missingHeaderMsg "X-Request-Id"] } := by
  constructor
  · exact (header_check_contract okResponse expect200 initResult).1 rfl
  · exact (header_check_contract hdrResponse hdrExpected initResult).2.trans rfl

/-- C3: body-rule precedence is exact > regex > contains/not-contains.
With a non-empty exact string only the exact comparison is evaluated (the
result is the exact verdict and is unchanged under any regex engine,
regex pattern and contains/not-contains lists); else with a non-empty
regex only the regex is evaluated (unchanged under any contains lists);
else the contains and not-contains lists contribute independently and
cumulatively, one error per violated entry each. -/
theorem body_rule_precedence (m msub : String → String → Except String Bool)
    (R : Response) (E : Expected) (res : ValidationResult) (be : BodyExpected)
    (hb : E.body = some be) :
    (be.exact ≠ "" →
      (validateBody m R E res =
        (if R.body = be.exact then res
         else { res with errors := res.errors ++ [exactMismatchMsg be.exact R.body] })) ∧
      (∀ c' nc' rx',
        validateBody msub R { E with body := some ⟨c', nc', be.exact, rx'⟩ } res
          = validateBody m R E res)) ∧
    (be.exact = "" → be.regex ≠ "" →
      (validateBody m R E res = regexEval m be.regex R.body res) ∧
      (∀ c' nc',
        validateBody m R { E with body := some ⟨c', nc', "", be.regex⟩ } res
          = validateBody m R E res)) ∧
    (be.exact = "" → be.regex = "" →
      validateBody m R E res =
        { res with errors := res.errors ++ bodyContainsErrors R.body be.contains
            ++ bodyNotContainsErrors R.body be.notContains }) := by
  refine ⟨fun hex => ⟨?_, fun c' nc' rx' => ?_⟩,
          fun hex hrx => ⟨?_, fun c' nc' => ?_⟩,
          fun hex hrx => ?_⟩
  · rw [validateBody_spec]
    by_cases hbe : R.body = be.exact <;>
      simp [bodyCheckErrors, hb, hex, hbe]
  · rw [validateBody_spec, validateBody_spec]
    simp [bodyCheckErrors, hb, hex]
  · rw [validateBody_spec]
    unfold regexEval
    cases hm : m be.regex R.body with
    | error e => simp [bodyCheckErrors, hb, hex, hrx, hm]
    | ok matched => cases matched <;> simp [bodyCheckErrors, hb, hex, hrx, hm]
  · rw [validateBody_spec, validateBody_spec]
    simp [bodyCheckErrors, hb, hex, hrx]
  · rw [validateBody_spec]
    simp [bodyCheckErrors, hb, hex, hrx, List.append_assoc]

/-- Witness for C3: a mismatching exact rule reports only the exact error
even with contains/not-contains/regex rules present; a matching regex
with no exact rule leaves the result unchanged; contains plus
not-contains rules that are all satisfied leave the result unchanged. -/
theorem body_rule_precedence_witness :
    validateBody demoMatcher bodyResponse exactExpected initResult =
      { initResult with errors := [exactMismatchMsg "hello" "message success data test"] } ∧
    validateBody demoMatcher bodyResponse regexExpected initResult = initResult ∧
    validateBody demoMatcher bodyResponse listsExpected initResult = initResult := by
  refine ⟨?_, ?_, ?_⟩
  · exact (((body_rule_precedence demoMatcher demoMatcher bodyResponse exactExpected
      initResult beExact rfl).1 (by decide)).1).trans rfl
  · exact (((body_rule_precedence demoMatcher demoMatcher bodyResponse regexExpected
      initResult beRegexOnly rfl).2.1 rfl (by decide)).1).trans rfl
  · exact ((body_rule_precedence demoMatcher demoMatcher bodyResponse listsExpected
      initResult beListsOnly rfl).2.2 rfl rfl).trans rfl

/-- C7: with the regex rule active (exact unset, regex set), a pattern
the engine compiles but reports as not matching contributes exactly one
no-match error, and a matching pattern contributes no body error. -/
theorem regex_match_outcome (m : String → String → Except String Bool)
    (R : Response) (E : Expected) (res : ValidationResult) (be : BodyExpected)
    (hb : E.body = some be) (hex : be.exact = "") (hrx : be.regex ≠ "") :
    (m be.regex R.body = Except.ok false →
      validateBody m R E res =
        { res with errors := res.errors ++ [regexNoMatchMsg be.regex] }) ∧
    (m be.regex R.body = Except.ok true → validateBody m R E res = res) := by
  constructor <;> intro hm <;> rw [validateBody_spec] <;>
    simp [bodyCheckErrors, hb, hex, hrx, hm]

/-- Witness for C7: under `demoMatcher`, pattern `zzz` fails to match the
body and yields exactly the no-match error; pattern `success` matches and
yields no body error. -/
theorem regex_match_outcome_witness :
    validateBody demoMatcher bodyResponse regexMissExpected initResult =
      { initResult with errors := [regexNoMatchMsg "zzz"] } ∧
    validateBody demoMatcher bodyResponse regexExpected initResult = initResult := by
  constructor
  · exact ((regex_match_outcome demoMatcher bodyResponse regexMissExpected initResult
      beRegexMiss rfl rfl (by decide)).1 rfl).trans rfl
  · exact ((regex_match_outcome demoMatcher bodyResponse regexExpected initResult
      beRegexOnly rfl rfl (by decide)).2 rfl).trans rfl

/-- C6: when the regex rule is active and the pattern fails to compile
(the engine returns an error for every subject), the whole validation
carries exactly one body error, naming the invalid pattern, appended
after the untouched status and header contributions; the warnings are the
status check's alone, and the result fails — all independent of the
response body's content. -/
theorem invalid_regex_single_error (m : String → String → Except String Bool)
    (R : Response) (E : Expected) (name e : String) (be : BodyExpected)
    (hb : E.body = some be) (hex : be.exact = "") (hrx : be.regex ≠ "")
    (herr : ∀ b, m be.regex b = Except.error e) :
    Validate m R E name =
      { passed := false,
        errors := statusCheckErrors R E ++ headerCheckErrors R E ++
          [invalidRegexMsg be.regex e],
        warnings := statusCheckWarnings E } := by
  rw [Validate_spec]
  have hbody : bodyCheckErrors m R E = [invalidRegexMsg be.regex e] := by
    simp [bodyCheckErrors, hb, hex, hrx, herr R.body]
  have hne : validateErrors m R E ≠ [] := by
    simp [validateErrors, hbody]
  simp [validateErrors, hbody, List.isEmpty_eq_false.mpr hne]

/-- Witness for C6: the malformed pattern `[invalid` produces exactly one
error naming it, on a response that passes the status check. -/
theorem invalid_regex_single_error_witness :
    Validate demoMatcher bodyResponse invalidRegexExpected "t" =
      { passed := false,
        errors :=
          [invalidRegexMsg "[invalid" "error parsing regexp: missing closing ]: `[invalid`"],
        warnings := [] } :=
  (invalid_regex_single_error demoMatcher bodyResponse invalidRegexExpected "t"
    "error parsing regexp: missing closing ]: `[invalid`" beInvalidRegex rfl rfl
    (by decide) (fun b => rfl)).trans rfl

/-- C10: the empty string is the unset sentinel for the exact and regex
body rules. With `exact = ""` the exact comparison is never evaluated —
even a response body different from `""` draws no exact-match error — and
the check falls through: to the contains/not-contains lists when
`regex = ""` too, to the regex evaluation when `regex ≠ ""`. -/
theorem empty_string_sentinel (m : String → String → Except String Bool)
    (R : Response) (E : Expected) (res : ValidationResult) (be : BodyExpected)
    (hb : E.body = some be) (hex : be.exact = "") :
    (be.regex = "" →
      validateBody m R E res =
        { res with errors := res.errors ++ bodyContainsErrors R.body be.contains
            ++ bodyNotContainsErrors R.body be.notContains }) ∧
    (be.regex ≠ "" → validateBody m R E res = regexEval m be.regex R.body res) := by
  constructor
  · intro hrx
    rw [validateBody_spec]
    simp [bodyCheckErrors, hb, hex, hrx, List.append_assoc]
  · intro hrx
    rw [validateBody_spec]
    unfold regexEval
    cases hm : m be.regex R.body with
    | error e => simp [bodyCheckErrors, hb, hex, hrx, hm]
    | ok matched => cases matched <;> simp [bodyCheckErrors, hb, hex, hrx, hm]

/-- Witness for C10: with every body-rule field at its zero value and a
non-empty response body, validation adds nothing (no exact-match of `""`
is demanded); with only a regex set, the regex outcome decides. -/
theorem empty_string_sentinel_witness :
    validateBody demoMatcher okResponse emptyRulesExpected initResult = initResult ∧
    validateBody demoMatcher bodyResponse regexMissExpected initResult =
      { initResult with errors := [regexNoMatchMsg "zzz"] } := by
  constructor
  · exact ((empty_string_sentinel demoMatcher okResponse emptyRulesExpected initResult
      beEmptyRules rfl rfl).1 rfl).trans rfl
  · exact ((empty_string_sentinel demoMatcher bodyResponse regexMissExpected initResult
      beRegexMiss rfl rfl).2 (by decide)).trans rfl

theorem zipWith3_length (f : α → β → γ → δ) :
    ∀ (as : List α) (bs : List β) (cs : List γ),
      as.length = bs.length → as.length = cs.length →
      (zipWith3 f as bs cs).length = as.length := by
  intro as
  induction as with
  | nil => intro bs cs _ _; rfl
  | cons a as ih =>
    intro bs cs h1 h2
    cases bs with
    | nil => simp at h1
    | cons b bs =>
      cases cs with
      | nil => simp at h2
      | cons c cs =>
        simp only [zipWith3, List.length_cons]
        rw [ih bs cs (by simpa using h1) (by simpa using h2)]

theorem zipWith3_get? (f : α → β → γ → δ) :
    ∀ (as : List α) (bs : List β) (cs : List γ) (i : Nat) (a : α) (b : β) (c : γ),
      as.get? i = some a → bs.get? i = some b → cs.get? i = some c →
      (zipWith3 f as bs cs).get? i = some (f a b c) := by
  intro as
  induction as with
  | nil => intro bs cs i a b c ha; simp at ha
  | cons x xs ih =>
    intro bs cs i a b c ha hb hc
    cases bs with
    | nil => simp at hb
    | cons y ys =>
      cases cs with
      | nil => simp at hc
      | cons z zs =>
        cases i with
        | zero =>
          simp only [List.get?] at ha hb hc
          injection ha with ha; injection hb with hb; injection hc with hc
          subst ha; subst hb; subst hc
          rfl
        | succ i =>
          simp only [List.get?] at ha hb hc
          exact ih ys zs i a b c ha hb hc

/-- C8: `ValidateMultiple` faults (models the Go panic as `none`) on any
length mismatch among its three inputs, never truncating; with equal
lengths it returns a list of the same length whose i-th element is
`Validate` of the i-th response, expectation and label. -/
theorem validateMultiple_contract (m : String → String → Except String Bool)
    (rs : List Response) (es : List Expected) (ns : List String) :
    (rs.length ≠ es.length ∨ rs.length ≠ ns.length →
      ValidateMultiple m rs es ns = none) ∧
    (rs.length = es.length → rs.length = ns.length →
      ∃ l, ValidateMultiple m rs es ns = some l ∧ l.length = rs.length ∧
        ∀ (i : Nat) (R : Response) (E : Expected) (nm : String),
          rs.get? i = some R → es.get? i = some E → ns.get? i = some nm →
          l.get? i = some (Validate m R E nm)) := by
  constructor
  · intro h
    unfold ValidateMultiple
    rw [if_pos h]
  · intro h1 h2
    have hcond : ¬(rs.length ≠ es.length ∨ rs.length ≠ ns.length) := by
      push_neg
      exact ⟨h1, h2⟩
    refine ⟨zipWith3 (Validate m) rs es ns, ?_, zipWith3_length _ rs es ns h1 h2,
      fun i R E nm hR hE hn => zipWith3_get? _ rs es ns i R E nm hR hE hn⟩
    unfold ValidateMultiple
    rw [if_neg hcond]

/-- Witness for C8: misaligned lists fault; aligned singleton lists give
the pointwise `Validate` result. -/
theorem validateMultiple_contract_witness :
    ValidateMultiple demoMatcher [okResponse] [] [] = none ∧
    ∃ l, ValidateMultiple demoMatcher [okResponse] [expect200] ["t"] = some l ∧
      l.length = 1 ∧ l.get? 0 = some (Validate demoMatcher okResponse expect200 "t") := by
  constructor
  · exact (validateMultiple_contract demoMatcher [okResponse] [] []).1 (Or.inl (by decide))
  · obtain ⟨l, hsome, hlen, hget⟩ :=
      (validateMultiple_contract demoMatcher [okResponse] [expect200] ["t"]).2 rfl rfl
    exact ⟨l, hsome, hlen, hget 0 okResponse expect200 "t" rfl rfl rfl⟩

/-- C2 counterexample: in the CLI's sequential runner a transport failure
on test 1 is NOT recorded — the suite report over a 2-test suite where
test 1 is unreachable and test 2 passes counts 1 total test, 1 passed, 0
failed, and carries only test 2's report, contradicting the claimed
totalTests=2, failedTests=1 with a recorded failed outcome. -/
theorem cli_sequential_drops_failed_test :
    (GenerateSuiteReport "All Tests"
      (executeTestsSequentially demoMatcher scenarioExec [tcase1, tcase2])).totalTests = 1 ∧
    (GenerateSuiteReport "All Tests"
      (executeTestsSequentially demoMatcher scenarioExec [tcase1, tcase2])).passedTests = 1 ∧
    (GenerateSuiteReport "All Tests"
      (executeTestsSequentially demoMatcher scenarioExec [tcase1, tcase2])).failedTests = 0 ∧
    (GenerateSuiteReport "All Tests"
      (executeTestsSequentially demoMatcher scenarioExec [tcase1, tcase2])).tests.map
        TestReport.testName = ["test2"] :=
  ⟨rfl, rfl, rfl, rfl⟩

/-- C2 amended: in the client API's `runTests`, a transport failure on
test 1 of a 2-test suite is recorded as a failed TestResult whose sole
error is the transport error message (no warnings, and the Go TestResult
carries no response/validation payload), execution proceeds to test 2,
and the summary counts 2 total, 1 passed, 1 failed. -/
theorem client_runTests_records_transport_failure
    (m : String → String → Except String Bool)
    (exec : TestCase → Except String Response) (name : String)
    (ta tb : TestCase) (rb : Response) (msg : String)
    (ha : exec ta = Except.error msg) (hb : exec tb = Except.ok rb)
    (hpass : (Validate m rb tb.expected tb.name).passed = true) :
    runTests m exec name [ta, tb] =
      { suiteName := name, totalTests := 2, passedTests := 1, failedTests := 1,
        testResults :=
          [{ testName := ta.name, passed := false, errors := [msg], warnings := [] },
           { testName := tb.name, passed := true,
             errors := (Validate m rb tb.expected tb.name).errors,
             warnings := (Validate m rb tb.expected tb.name).warnings }] } := by
  unfold runTests runTestsStep
  simp [ha, hb, hpass]

/-- Witness for C2: Scenario F through the client API — test 1
unreachable, test 2 passing — yields totals 2/1/1 with the transport
message as test 1's only error. -/
theorem client_runTests_records_transport_failure_witness :
    runTests demoMatcher scenarioExec "Suite" [tcase1, tcase2] =
      { suiteName := "Suite", totalTests := 2, passedTests := 1, failedTests := 1,
        testResults :=
          [{ testName := "test1", passed := false, errors := ["connection refused"],
             warnings := [] },
           { testName := "test2", passed := true, errors := [], warnings := [] }] } :=
  (client_runTests_records_transport_failure demoMatcher scenarioExec "Suite"
    tcase1 tcase2 okResponse "connection refused" rfl rfl rfl).trans rfl

theorem card_slots_update_eq (phase : Fin n → GoPhase) (i : Fin n) (v : GoPhase)
    (h : holdsSlot v = holdsSlot (phase i)) :
    (Finset.univ.filter
      (fun j => holdsSlot (Function.update phase i v j) = true)).card =
    (Finset.univ.filter (fun j => holdsSlot (phase j) = true)).card := by
  congr 1
  ext j
  by_cases hj : j = i
  · subst hj
    simp [Function.update_same, h]
  · simp [Function.update_noteq hj]

theorem card_slots_update_acquire (phase : Fin n → GoPhase) (i : Fin n) (v : GoPhase)
    (hold : holdsSlot (phase i) = false) (hv : holdsSlot v = true) :
    (Finset.univ.filter
      (fun j => holdsSlot (Function.update phase i v j) = true)).card =
    (Finset.univ.filter (fun j => holdsSlot (phase j) = true)).card + 1 := by
  have hset : Finset.univ.filter
      (fun j => holdsSlot (Function.update phase i v j) = true) =
      insert i (Finset.univ.filter (fun j => holdsSlot (phase j) = true)) := by
    ext j
    by_cases hj : j = i
    · subst hj
      simp [Function.update_same, hv]
    · simp [Function.update_noteq hj, hj]
  rw [hset, Finset.card_insert_of_not_mem]
  simp [hold]

theorem card_slots_update_release (phase : Fin n → GoPhase) (i : Fin n) (v : GoPhase)
    (hold : holdsSlot (phase i) = true) (hv : holdsSlot v = false) :
    (Finset.univ.filter (fun j => holdsSlot (phase j) = true)).card =
    (Finset.univ.filter
      (fun j => holdsSlot (Function.update phase i v j) = true)).card + 1 := by
  have hset : Finset.univ.filter
      (fun j => holdsSlot (Function.update phase i v j) = true) =
      (Finset.univ.filter (fun j => holdsSlot (phase j) = true)).erase i := by
    ext j
    by_cases hj : j = i
    · subst hj
      simp [Function.update_same, hv]
    · simp [Function.update_noteq hj, hj]
  rw [hset]
  exact (Finset.card_erase_add_one (by simp [hold])).symm

theorem contribution_update_eq (outcome : Fin n → Option TestReport)
    (phase : Fin n → GoPhase) (i : Fin n) (v : GoPhase)
    (h : (if mergedPhase v then outcome i else none) =
      (if mergedPhase (phase i) then outcome i else none)) :
    (fun j => if mergedPhase (Function.update phase i v j) then outcome j else none)
      = (fun j => if mergedPhase (phase j) then outcome j else none) := by
  funext j
  by_cases hj : j = i
  · subst hj
    simpa [Function.update_same] using h
  · simp [Function.update_noteq hj]

theorem filterMap_pointwise_insert {α : Type} (g gNew : Fin n → Option α)
    (i : Fin n) (r : α) (hg : g i = none) (hgNew : gNew i = some r)
    (hsame : ∀ j, j ≠ i → gNew j = g j) :
    ∀ l : List (Fin n), l.Nodup → i ∈ l →
      (l.filterMap gNew).Perm (r :: l.filterMap g) := by
  intro l
  induction l with
  | nil => intro _ hmem; simp at hmem
  | cons x xs ih =>
    intro hnd hmem
    by_cases hx : x = i
    · subst hx
      have hnotin : x ∉ xs := (List.nodup_cons.mp hnd).1
      have hcongr : xs.filterMap gNew = xs.filterMap g := by
        apply List.filterMap_congr
        intro j hj
        exact hsame j (fun hji => hnotin (hji ▸ hj))
      rw [List.filterMap_cons, List.filterMap_cons, hg, hgNew, hcongr]
    · have hmem' : i ∈ xs := by
        cases List.mem_cons.mp hmem with
        | inl hh => exact absurd hh.symm hx
        | inr hh => exact hh
      have hnd' : xs.Nodup := (List.nodup_cons.mp hnd).2
      rw [List.filterMap_cons, List.filterMap_cons, hsame x hx]
      cases hgx : g x with
      | none => exact ih hnd' hmem'
      | some a =>
        exact ((ih hnd' hmem').cons a).trans (List.Perm.swap r a _)

theorem lockInv_update_nonCS (phase : Fin n → GoPhase) (lk : Option (Fin n))
    (i : Fin n) (v : GoPhase)
    (hlock : ∀ j, inCS (phase j) = true ↔ lk = some j)
    (hv : inCS v = false) (hold : inCS (phase i) = false) :
    ∀ j, inCS (Function.update phase i v j) = true ↔ lk = some j := by
  intro j
  by_cases hj : j = i
  · subst hj
    rw [Function.update_same, hv]
    constructor
    · intro h
      simp at h
    · intro h
      have hc := (hlock j).mpr h
      rw [hold] at hc
      simp at hc
  · rw [Function.update_noteq hj]
    exact hlock j

theorem exitInv_update (outcome : Fin n → Option TestReport)
    (phase : Fin n → GoPhase) (i : Fin n) (v : GoPhase)
    (hexit : ∀ j, phase j = .exiting → outcome j = none)
    (hv : v = .exiting → outcome i = none) :
    ∀ j, Function.update phase i v j = .exiting → outcome j = none := by
  intro j hj'
  by_cases hj : j = i
  · subst hj
    rw [Function.update_same] at hj'
    exact hv hj'
  · rw [Function.update_noteq hj] at hj'
    exact hexit j hj'

theorem runnerInv_init (limit : Nat) (outcome : Fin n → Option TestReport) :
    RunnerInv limit outcome (initState n) := by
  refine ⟨?_, ?_, ?_, ?_, ?_⟩
  · simp [initState, inFlight, holdsSlot]
  · simp [initState]
  · intro i
    simp [initState, inCS]
  · simp [initState, mergedPhase]
  · intro i h
    simp [initState] at h

theorem runnerInv_step (limit : Nat) (outcome : Fin n → Option TestReport)
    (s sNew : RunnerState n) (hstep : Step limit outcome s sNew)
    (hinv : RunnerInv limit outcome s) : RunnerInv limit outcome sNew := by
  obtain ⟨hsem, hbound, hlock, hperm, hexit⟩ := hinv
  cases hstep with
  | acquire i _ hidle hlt =>
    refine ⟨?_, ?_, ?_, ?_, ?_⟩
    · show s.semCount + 1 =
        (Finset.univ.filter
          (fun j => holdsSlot (Function.update s.phase i GoPhase.running j) = true)).card
      rw [card_slots_update_acquire s.phase i GoPhase.running (by rw [hidle]; rfl) rfl]
      rw [hsem]
      rfl
    · exact hlt
    · exact lockInv_update_nonCS s.phase s.lockHolder i GoPhase.running hlock rfl
        (by rw [hidle]; rfl)
    · show s.reports.Perm _
      rw [contribution_update_eq outcome s.phase i GoPhase.running (by rw [hidle]; rfl)]
      exact hperm
    · exact exitInv_update outcome s.phase i GoPhase.running hexit
        (fun h => by simp at h)
  | execFail i _ hph hout =>
    refine ⟨?_, ?_, ?_, ?_, ?_⟩
    · show s.semCount =
        (Finset.univ.filter
          (fun j => holdsSlot (Function.update s.phase i GoPhase.exiting j) = true)).card
      rw [card_slots_update_eq s.phase i GoPhase.exiting (by rw [hph]; rfl)]
      exact hsem
    · exact hbound
    · exact lockInv_update_nonCS s.phase s.lockHolder i GoPhase.exiting hlock rfl
        (by rw [hph]; rfl)
    · show s.reports.Perm _
      rw [contribution_update_eq outcome s.phase i GoPhase.exiting (by rw [hph]; rfl)]
      exact hperm
    · exact exitInv_update outcome s.phase i GoPhase.exiting hexit (fun _ => hout)
  | execOk i _ r hph hout =>
    refine ⟨?_, ?_, ?_, ?_, ?_⟩
    · show s.semCount =
        (Finset.univ.filter
          (fun j => holdsSlot (Function.update s.phase i GoPhase.wantLock j) = true)).card
      rw [card_slots_update_eq s.phase i GoPhase.wantLock (by rw [hph]; rfl)]
      exact hsem
    · exact hbound
    · exact lockInv_update_nonCS s.phase s.lockHolder i GoPhase.wantLock hlock rfl
        (by rw [hph]; rfl)
    · show s.reports.Perm _
      rw [contribution_update_eq outcome s.phase i GoPhase.wantLock (by rw [hph]; rfl)]
      exact hperm
    · exact exitInv_update outcome s.phase i GoPhase.wantLock hexit
        (fun h => by simp at h)
  | lock i _ hph hnone =>
    refine ⟨?_, ?_, ?_, ?_, ?_⟩
    · show s.semCount =
        (Finset.univ.filter
          (fun j => holdsSlot (Function.update s.phase i GoPhase.critical j) = true)).card
      rw [card_slots_update_eq s.phase i GoPhase.critical (by rw [hph]; rfl)]
      exact hsem
    · exact hbound
    · intro j
      dsimp only
      by_cases hj : j = i
      · subst hj
        rw [Function.update_same]
        exact ⟨fun _ => rfl, fun _ => rfl⟩
      · rw [Function.update_noteq hj]
        constructor
        · intro h
          have hc := (hlock j).mp h
          rw [hnone] at hc
          exact absurd hc (by simp)
        · intro h
          exact absurd (Option.some.inj h).symm hj
    · show s.reports.Perm _
      rw [contribution_update_eq outcome s.phase i GoPhase.critical (by rw [hph]; rfl)]
      exact hperm
    · exact exitInv_update outcome s.phase i GoPhase.critical hexit
        (fun h => by simp at h)
  | append i _ r hph hout =>
    have hlcur : s.lockHolder = some i := (hlock i).mp (by rw [hph]; rfl)
    refine ⟨?_, ?_, ?_, ?_, ?_⟩
    · show s.semCount =
        (Finset.univ.filter
          (fun j => holdsSlot (Function.update s.phase i GoPhase.appended j) = true)).card
      rw [card_slots_update_eq s.phase i GoPhase.appended (by rw [hph]; rfl)]
      exact hsem
    · exact hbound
    · intro j
      dsimp only
      by_cases hj : j = i
      · subst hj
        rw [Function.update_same]
        exact ⟨fun _ => hlcur, fun _ => rfl⟩
      · rw [Function.update_noteq hj]
        exact hlock j
    · show (s.reports ++ [r]).Perm _
      have hins := filterMap_pointwise_insert
        (fun j => if mergedPhase (s.phase j) then outcome j else none)
        (fun j => if mergedPhase (Function.update s.phase i GoPhase.appended j)
          then outcome j else none)
        i r (by dsimp only; rw [hph]; rfl)
        (by dsimp only; rw [Function.update_same]; simpa [mergedPhase] using hout)
        (fun j hj => by dsimp only; rw [Function.update_noteq hj])
        (List.finRange n) (List.nodup_finRange n) (List.mem_finRange i)
      exact (List.perm_append_singleton r s.reports).trans
        ((hperm.cons r).trans hins.symm)
    · exact exitInv_update outcome s.phase i GoPhase.appended hexit
        (fun h => by simp at h)
  | unlock i _ hph =>
    have hlcur : s.lockHolder = some i := (hlock i).mp (by rw [hph]; rfl)
    refine ⟨?_, ?_, ?_, ?_, ?_⟩
    · show s.semCount =
        (Finset.univ.filter
          (fun j => holdsSlot (Function.update s.phase i GoPhase.printing j) = true)).card
      rw [card_slots_update_eq s.phase i GoPhase.printing (by rw [hph]; rfl)]
      exact hsem
    · exact hbound
    · intro j
      dsimp only
      by_cases hj : j = i
      · subst hj
        rw [Function.update_same]
        constructor
        · intro h
          exact absurd h (by decide)
        · intro h
          simp at h
      · rw [Function.update_noteq hj]
        constructor
        · intro h
          have hc := (hlock j).mp h
          rw [hlcur] at hc
          exact absurd (Option.some.inj hc) (fun hh => hj hh.symm)
        · intro h
          simp at h
    · show s.reports.Perm _
      rw [contribution_update_eq outcome s.phase i GoPhase.printing (by rw [hph]; rfl)]
      exact hperm
    · exact exitInv_update outcome s.phase i GoPhase.printing hexit
        (fun h => by simp at h)
  | finish i _ hor =>
    have hold : holdsSlot (s.phase i) = true := by
      cases hor with
      | inl h => rw [h]; rfl
      | inr h => rw [h]; rfl
    have holdCS : inCS (s.phase i) = false := by
      cases hor with
      | inl h => rw [h]; rfl
      | inr h => rw [h]; rfl
    refine ⟨?_, ?_, ?_, ?_, ?_⟩
    · show s.semCount - 1 =
        (Finset.univ.filter
          (fun j => holdsSlot (Function.update s.phase i GoPhase.done j) = true)).card
      have hrel := card_slots_update_release s.phase i GoPhase.done hold rfl
      have hsem' : s.semCount =
          (Finset.univ.filter (fun j => holdsSlot (s.phase j) = true)).card := hsem
      omega
    · show s.semCount - 1 ≤ limit
      omega
    · exact lockInv_update_nonCS s.phase s.lockHolder i GoPhase.done hlock rfl holdCS
    · show s.reports.Perm _
      have harg : (if mergedPhase GoPhase.done then outcome i else none) =
          (if mergedPhase (s.phase i) then outcome i else none) := by
        cases hor with
        | inl h => rw [h, hexit i h]; simp
        | inr h => rw [h]; rfl
      rw [contribution_update_eq outcome s.phase i GoPhase.done harg]
      exact hperm
    · exact exitInv_update outcome s.phase i GoPhase.done hexit
        (fun h => by simp at h)

theorem runnerInv_reachable (limit : Nat) (outcome : Fin n → Option TestReport)
    (s : RunnerState n) (h : Reachable limit outcome s) :
    RunnerInv limit outcome s := by
  induction h with
  | refl => exact runnerInv_init limit outcome
  | tail _ hstep ih => exact runnerInv_step limit outcome _ _ hstep ih

theorem fin1_update (f : Fin 1 → GoPhase) (v : GoPhase) :
    Function.update f 0 v = fun _ => v := by
  funext j
  rw [Subsingleton.elim j 0]
  simp

/-- C9: in every state the bounded-parallel runner can reach, at most
`limit` goroutines hold a semaphore slot (so at most `limit` requests are
in flight), at most one goroutine is inside the mutex-protected append
region, and once every goroutine is done — exactly when `wg.Wait()`
unblocks and the suite summary is computed — the shared report slice
holds precisely the reports of the transport-successful tests, with
none lost or duplicated (up to completion order). -/
theorem concurrent_runner_invariants {n : Nat} (limit : Nat)
    (outcome : Fin n → Option TestReport) (s : RunnerState n)
    (h : Reachable limit outcome s) :
    inFlight s ≤ limit ∧
    (∀ i j : Fin n, inCS (s.phase i) = true → inCS (s.phase j) = true → i = j) ∧
    (AllDone s → s.reports.Perm (successReports outcome)) := by
  obtain ⟨hsem, hbound, hlock, hperm, _⟩ := runnerInv_reachable limit outcome s h
  refine ⟨hsem ▸ hbound, fun i j hi hj => ?_, fun hdone => ?_⟩
  · have h1 := (hlock i).mp hi
    have h2 := (hlock j).mp hj
    rw [h1] at h2
    exact Option.some.inj h2
  · have hfun : (fun i => if mergedPhase (s.phase i) then outcome i else none)
        = fun i => outcome i := by
      funext i
      rw [hdone i]
      rfl
    unfold successReports
    rw [hfun] at hperm
    exact hperm

/-- Witness for C9: a concrete complete run of one test under limit 2 —
acquire, successful request, lock, append, unlock, finish — reaches
`wFinal`, where the bound, the mutual exclusion and the exactly-one-report
conclusion all hold. -/
theorem concurrent_runner_invariants_witness :
    inFlight wFinal ≤ 2 ∧
    (∀ i j : Fin 1, inCS (wFinal.phase i) = true → inCS (wFinal.phase j) = true → i = j) ∧
    (AllDone wFinal → wFinal.reports.Perm (successReports wOutcome)) := by
  apply concurrent_runner_invariants 2 wOutcome wFinal
  show Relation.ReflTransGen (Step 2 wOutcome) (initState 1) wFinal
  have h1 : Step 2 wOutcome (wState GoPhase.idle 0 none [])
      (wState GoPhase.running 1 none []) := by
    have h := @Step.acquire 1 2 wOutcome 0 (wState GoPhase.idle 0 none []) rfl
      (by decide)
    convert h using 1
    unfold wState
    rw [fin1_update]
  have h2 : Step 2 wOutcome (wState GoPhase.running 1 none [])
      (wState GoPhase.wantLock 1 none []) := by
    have h := @Step.execOk 1 2 wOutcome 0 (wState GoPhase.running 1 none [])
      demoReport rfl rfl
    convert h using 1
    unfold wState
    rw [fin1_update]
  have h3 : Step 2 wOutcome (wState GoPhase.wantLock 1 none [])
      (wState GoPhase.critical 1 (some 0) []) := by
    have h := @Step.lock 1 2 wOutcome 0 (wState GoPhase.wantLock 1 none []) rfl rfl
    convert h using 1
    unfold wState
    rw [fin1_update]
  have h4 : Step 2 wOutcome (wState GoPhase.critical 1 (some 0) [])
      (wState GoPhase.appended 1 (some 0) [demoReport]) := by
    have h := @Step.append 1 2 wOutcome 0 (wState GoPhase.critical 1 (some 0) [])
      demoReport rfl rfl
    convert h using 1
    unfold wState
    rw [fin1_update]
    rfl
  have h5 : Step 2 wOutcome (wState GoPhase.appended 1 (some 0) [demoReport])
      (wState GoPhase.printing 1 none [demoReport]) := by
    have h := @Step.unlock 1 2 wOutcome 0
      (wState GoPhase.appended 1 (some 0) [demoReport]) rfl
    convert h using 1
    unfold wState
    rw [fin1_update]
  have h6 : Step 2 wOutcome (wState GoPhase.printing 1 none [demoReport]) wFinal := by
    have h := @Step.finish 1 2 wOutcome 0
      (wState GoPhase.printing 1 none [demoReport]) (Or.inr rfl)
    convert h using 1
    unfold wState wFinal
    rw [fin1_update]
    rfl
  exact Relation.ReflTransGen.tail
    (Relation.ReflTransGen.tail
      (Relation.ReflTransGen.tail
        (Relation.ReflTransGen.tail
          (Relation.ReflTransGen.tail
            (Relation.ReflTransGen.tail Relation.ReflTransGen.refl h1) h2) h3) h4) h5) h6
